import Mathlib

/-!
Verification development for the mqtt-artisan-bridge program (src/main.rs).

The program bridges MQTT telemetry from a roaster controller to a serial
line read by the Artisan roast logger.  The core pipeline is:

* `TelemetryData` — the decoded telemetry record (struct in main.rs,
  lines 33–53), with serde renames to camelCase JSON field names.
* payload decoding — `serde_json::from_str::<TelemetryData>` applied to
  `String::from_utf8_lossy(&publish.payload)` (lines 125, 130); modelled
  here by `utf8Lossy`, `parseJson` and `fromJsonTD`.
* the shared latest-value store — `Arc<Mutex<Option<TelemetryData>>>`
  (line 91), written by the ingestion loop (lines 137–138) and cloned by
  the emission task (lines 101–104); modelled as an `Option TelemetryData`
  cell with explicit operations.
* the line framer — `format!("{:.1},{:.1}\n", bean_temp, env_temp)`
  (line 107); modelled by `fmt1` and `frame`.  Rust's `{:.1}` formatting
  of an f64 rounds the decimal expansion at the tenths digit with ties to
  even; temperatures are embedded as rationals, which agrees with the f64
  behaviour on all values considered here.
* the ingestion event loop (lines 121–157): subscribe once at startup
  (line 88) at QoS::AtMostOnce, then poll events forever; modelled by
  `BridgeState`, `MqttEvent`, `stepBridge` and `runBridge`.
* the emission task (lines 94–117): every tick, snapshot the store, frame
  and write if a value is present; modelled by `emitTick` / `runEmission`.
-/

set_option maxRecDepth 100000

/-- Character for a single decimal digit `d < 10` (`'0'` + d). -/
def digitChar (d : Nat) : Char := Char.ofNat (48 + d)

/-- Decimal digit list of `n`, most significant first; `fuel` bounds the
recursion depth (`n + 1` always suffices). -/
def natToDigitsAux : Nat → Nat → List Char
  | 0, _ => []
  | fuel + 1, n =>
    if n < 10 then [digitChar n]
    else natToDigitsAux fuel (n / 10) ++ [digitChar (n % 10)]

/-- Decimal rendering of a natural number, as Rust renders the integral
part of a formatted float. -/
def natRepr (n : Nat) : String := ⟨natToDigitsAux (n + 1) n⟩

/-- Round `10 * q` to the nearest integer, ties to even — the rounding
Rust's float formatting applies at the last displayed digit when one
decimal place is requested.  Computed on `q.num` and `q.den` directly so
that the kernel can evaluate it on literals. -/
def roundTenthsHalfEven (q : ℚ) : Int :=
  let N : Int := 10 * q.num
  let D : Int := (q.den : Int)
  let f : Int := Int.fdiv N D
  let r2 : Int := 2 * (N - f * D)
  if r2 < D then f
  else if D < r2 then f + 1
  else if f % 2 = 0 then f else f + 1

/-- Model of Rust's `format!("{:.1}", x)`: the value rounded to tenths,
rendered with exactly one digit after the decimal point. -/
def fmt1 (q : ℚ) : String :=
  let n := roundTenthsHalfEven q
  (if n < 0 then "-" else "") ++ natRepr (n.natAbs / 10) ++ "." ++ natRepr (n.natAbs % 10)

/-- The telemetry record of main.rs lines 33–53.  `u8` fields are `Nat`s
whose range `[0, 255]` is enforced where the program enforces it: at
deserialization (`asU8` below); likewise `u64` fields and `[0, 2^64)`.
`f64` temperature fields are embedded as rationals. -/
structure TelemetryData where
  timestamp : Nat
  bean_temp : ℚ
  env_temp : ℚ
  rate_of_rise : ℚ
  heater_pwm : Nat
  fan_pwm : Nat
  setpoint : ℚ
  control_mode : Nat
  heater_enable : Nat
  uptime : Nat
deriving DecidableEq

/-- The line framer of main.rs line 107:
`format!("{:.1},{:.1}\n", telemetry.bean_temp, telemetry.env_temp)`. -/
def frame (t : TelemetryData) : String :=
  fmt1 t.bean_temp ++ "," ++ fmt1 t.env_temp ++ "\n"

/-! ## JSON values and the payload parser

Models `serde_json::from_str::<TelemetryData>` (main.rs line 130).
Numbers follow serde_json's classification: a token with no fraction and
no exponent is an integer (stored as `u64` when non-negative and below
`2^64`, as `i64` when negative and at least `-2^63`, otherwise falling
back to floating point); any other numeric token is floating point.
Floating-point values are embedded as exact rationals. -/

/-- A parsed JSON number: serde_json's integer / floating-point split. -/
inductive JNum where
  | int (n : Int)
  | float (q : ℚ)
deriving DecidableEq

/-- JSON values. -/
inductive Json where
  | null
  | bool (b : Bool)
  | num (n : JNum)
  | str (s : String)
  | arr (elems : List Json)
  | obj (members : List (String × Json))

/-- Drop leading JSON whitespace. -/
def skipWs : List Char → List Char
  | [] => []
  | c :: cs => if c = ' ' ∨ c = '\t' ∨ c = '\n' ∨ c = '\r' then skipWs cs else c :: cs

/-- Value of a hexadecimal digit, if any. -/
def hexVal (c : Char) : Option Nat :=
  if '0' ≤ c ∧ c ≤ '9' then some (c.toNat - 48)
  else if 'a' ≤ c ∧ c ≤ 'f' then some (c.toNat - 87)
  else if 'A' ≤ c ∧ c ≤ 'F' then some (c.toNat - 55)
  else none

/-- Parse the body of a JSON string after the opening quote; `acc` holds
the characters read so far, reversed.  Lone `\u` escapes denote BMP
scalars; unpaired surrogates are rejected. -/
def parseStringBody : Nat → List Char → List Char → Except String (String × List Char)
  | 0, _, _ => .error "recursion limit exceeded while parsing a string"
  | fuel + 1, acc, cs =>
    match cs with
    | [] => .error "EOF while parsing a string"
    | '"' :: rest => .ok (⟨acc.reverse⟩, rest)
    | '\\' :: e :: rest =>
      match e with
      | '"' => parseStringBody fuel ('"' :: acc) rest
      | '\\' => parseStringBody fuel ('\\' :: acc) rest
      | '/' => parseStringBody fuel ('/' :: acc) rest
      | 'b' => parseStringBody fuel ('\x08' :: acc) rest
      | 'f' => parseStringBody fuel ('\x0c' :: acc) rest
      | 'n' => parseStringBody fuel ('\n' :: acc) rest
      | 'r' => parseStringBody fuel ('\r' :: acc) rest
      | 't' => parseStringBody fuel ('\t' :: acc) rest
      | 'u' =>
        match rest with
        | a :: b :: c :: d :: rest2 =>
          match hexVal a, hexVal b, hexVal c, hexVal d with
          | some va, some vb, some vc, some vd =>
            let v := ((va * 16 + vb) * 16 + vc) * 16 + vd
            if 0xD800 ≤ v ∧ v ≤ 0xDFFF then .error "unexpected surrogate in string escape"
            else parseStringBody fuel (Char.ofNat v :: acc) rest2
          | _, _, _, _ => .error "invalid hex escape in string"
        | _ => .error "invalid hex escape in string"
      | _ => .error "invalid escape in string"
    | '\\' :: [] => .error "EOF while parsing a string escape"
    | c :: rest =>
      if c.toNat < 0x20 then .error "control character in string"
      else parseStringBody fuel (c :: acc) rest

/-- Split off the longest leading run of decimal digits. -/
def takeDigits : List Char → List Char × List Char
  | [] => ([], [])
  | c :: cs =>
    if c.isDigit then
      let p := takeDigits cs
      (c :: p.1, p.2)
    else ([], c :: cs)

/-- Natural number denoted by a digit run (most significant first). -/
def digitsToNat (ds : List Char) : Nat :=
  ds.foldl (fun a c => 10 * a + (c.toNat - 48)) 0

/-- Parse an optional exponent part; returns
(exponent present, exponent negative, exponent magnitude, rest). -/
def parseExpPart (cs : List Char) : Except String (Bool × Bool × Nat × List Char) :=
  match cs with
  | c :: r =>
    if c = 'e' ∨ c = 'E' then
      let p : Bool × List Char :=
        match r with
        | '+' :: rr => (false, rr)
        | '-' :: rr => (true, rr)
        | _ => (false, r)
      match takeDigits p.2 with
      | ([], _) => .error "invalid number: expected exponent digits"
      | (eds, rest) => .ok (true, p.1, digitsToNat eds, rest)
    else .ok (false, false, 0, c :: r)
  | [] => .ok (false, false, 0, [])

/-- Parse a JSON number token, classifying it as serde_json does. -/
def parseNumber (cs : List Char) : Except String (JNum × List Char) :=
  let sp : Bool × List Char :=
    match cs with
    | '-' :: r => (true, r)
    | _ => (false, cs)
  let neg := sp.1
  match takeDigits sp.2 with
  | ([], _) => .error "invalid number"
  | (ids, cs2) =>
    if 1 < ids.length ∧ ids.head? = some '0' then .error "invalid number: leading zero"
    else
      let fracRes : Except String (List Char × List Char) :=
        match cs2 with
        | '.' :: r =>
          match takeDigits r with
          | ([], _) => .error "invalid number: expected digits after decimal point"
          | (fds, rest) => .ok (fds, rest)
        | _ => .ok ([], cs2)
      match fracRes with
      | .error e => .error e
      | .ok (fds, cs3) =>
        match parseExpPart cs3 with
        | .error e => .error e
        | .ok (hasExp, eneg, emag, rest) =>
          let mant : Nat := digitsToNat (ids ++ fds)
          if fds.isEmpty ∧ ¬hasExp then
            if neg then
              if mant ≤ 2 ^ 63 then .ok (.int (-(mant : Int)), rest)
              else .ok (.float (mkRat (-(mant : Int)) 1), rest)
            else
              if mant < 2 ^ 64 then .ok (.int (mant : Int), rest)
              else .ok (.float (mkRat (mant : Int) 1), rest)
          else
            let e : Int := (if eneg then -(emag : Int) else (emag : Int)) - (fds.length : Int)
            let sm : Int := if neg then -(mant : Int) else (mant : Int)
            let q : ℚ :=
              if 0 ≤ e then mkRat (sm * ((10 ^ e.toNat : Nat) : Int)) 1
              else mkRat sm (10 ^ (-e).toNat)
            .ok (.float q, rest)

mutual

/-- Parse one JSON value; `fuel` bounds the nesting depth (input length
plus one always suffices, as every nesting level consumes a character). -/
def parseValue : Nat → List Char → Except String (Json × List Char)
  | 0, _ => .error "recursion limit exceeded"
  | fuel + 1, cs =>
    match skipWs cs with
    | [] => .error "EOF while parsing a value"
    | 'n' :: 'u' :: 'l' :: 'l' :: rest => .ok (.null, rest)
    | 't' :: 'r' :: 'u' :: 'e' :: rest => .ok (.bool true, rest)
    | 'f' :: 'a' :: 'l' :: 's' :: 'e' :: rest => .ok (.bool false, rest)
    | '"' :: rest =>
      match parseStringBody (rest.length + 1) [] rest with
      | .error e => .error e
      | .ok (s, rest') => .ok (.str s, rest')
    | '[' :: rest => parseArrayElems fuel true [] rest
    | '\x7b' :: rest => parseObjMembers fuel true [] rest
    | c :: rest' =>
      if c = '-' ∨ c.isDigit then
        match parseNumber (c :: rest') with
        | .error e => .error e
        | .ok (n, rest2) => .ok (.num n, rest2)
      else .error "expected value"

/-- Parse the elements of a JSON array after the opening bracket. -/
def parseArrayElems : Nat → Bool → List Json → List Char → Except String (Json × List Char)
  | 0, _, _, _ => .error "recursion limit exceeded"
  | fuel + 1, first, acc, cs =>
    match skipWs cs with
    | ']' :: rest =>
      if first then .ok (.arr [], rest)
      else .error "trailing comma in array"
    | cs' =>
      match parseValue fuel cs' with
      | .error e => .error e
      | .ok (j, rest) =>
        match skipWs rest with
        | ',' :: rest2 => parseArrayElems fuel false (j :: acc) rest2
        | ']' :: rest2 => .ok (.arr (j :: acc).reverse, rest2)
        | _ => .error "expected comma or close bracket after array element"

/-- Parse the members of a JSON object after the opening brace. -/
def parseObjMembers : Nat → Bool → List (String × Json) → List Char → Except String (Json × List Char)
  | 0, _, _, _ => .error "recursion limit exceeded"
  | fuel + 1, first, acc, cs =>
    match skipWs cs with
    | '\x7d' :: rest =>
      if first then .ok (.obj [], rest)
      else .error "trailing comma in object"
    | '"' :: rest =>
      match parseStringBody (rest.length + 1) [] rest with
      | .error e => .error e
      | .ok (k, rest1) =>
        match skipWs rest1 with
        | ':' :: rest2 =>
          match parseValue fuel rest2 with
          | .error e => .error e
          | .ok (v, rest3) =>
            match skipWs rest3 with
            | ',' :: rest4 => parseObjMembers fuel false ((k, v) :: acc) rest4
            | '\x7d' :: rest4 => .ok (.obj ((k, v) :: acc).reverse, rest4)
            | _ => .error "expected comma or close brace after object member"
        | _ => .error "expected colon between key and value"
    | _ => .error "object key must be a string"

end

/-- Parse a complete JSON document: one value, then only trailing
whitespace, as `serde_json::from_str` requires. -/
def parseJson (s : String) : Except String Json :=
  match parseValue (s.length + 1) s.data with
  | .error e => .error e
  | .ok (j, rest) =>
    match skipWs rest with
    | [] => .ok j
    | _ => .error "trailing characters"

/-! ## Deserialization into `TelemetryData`

Models the `Deserialize` derive on `TelemetryData`: the object's members
are visited in order; a known field seen twice is an error; unknown
fields are skipped (serde's default); after the walk, any absent field is
an error.  Field types are checked as serde_json checks them: `f64`
accepts any number, `u64` a non-negative integer below `2^64`, `u8` an
integer in `[0, 255]`. -/

/-- Fields collected so far while walking an object's members. -/
structure PartialTD where
  timestamp : Option Nat := none
  bean_temp : Option ℚ := none
  env_temp : Option ℚ := none
  rate_of_rise : Option ℚ := none
  heater_pwm : Option Nat := none
  fan_pwm : Option Nat := none
  setpoint : Option ℚ := none
  control_mode : Option Nat := none
  heater_enable : Option Nat := none
  uptime : Option Nat := none

/-- Deserialize an `f64` field: any JSON number is accepted. -/
def asF64 (v : Json) (name : String) : Except String ℚ :=
  match v with
  | .num (.int n) => .ok (mkRat n 1)
  | .num (.float q) => .ok q
  | _ => .error ("invalid type for field " ++ name ++ ", expected f64")

/-- Deserialize a `u64` field: a non-negative integer below `2^64`. -/
def asU64 (v : Json) (name : String) : Except String Nat :=
  match v with
  | .num (.int n) =>
    if 0 ≤ n ∧ n < 2 ^ 64 then .ok n.toNat
    else .error ("invalid value: integer out of range for u64 field " ++ name)
  | .num (.float _) => .error ("invalid type: floating point, expected u64 field " ++ name)
  | _ => .error ("invalid type for field " ++ name ++ ", expected u64")

/-- Deserialize a `u8` field: an integer in `[0, 255]`. -/
def asU8 (v : Json) (name : String) : Except String Nat :=
  match v with
  | .num (.int n) =>
    if 0 ≤ n ∧ n ≤ 255 then .ok n.toNat
    else .error ("invalid value: integer out of range for u8 field " ++ name)
  | .num (.float _) => .error ("invalid type: floating point, expected u8 field " ++ name)
  | _ => .error ("invalid type for field " ++ name ++ ", expected u8")

/-- Record one object member into the partial record, by serde field name
(the camelCase names of the `serde(rename = ...)` attributes in main.rs
lines 34–52); unknown keys are ignored. -/
def setField (p : PartialTD) (k : String) (v : Json) : Except String PartialTD :=
  if k = "timestamp" then
    match p.timestamp with
    | some _ => .error "duplicate field timestamp"
    | none => (asU64 v "timestamp").map fun n => { p with timestamp := some n }
  else if k = "beanTemp" then
    match p.bean_temp with
    | some _ => .error "duplicate field beanTemp"
    | none => (asF64 v "beanTemp").map fun q => { p with bean_temp := some q }
  else if k = "envTemp" then
    match p.env_temp with
    | some _ => .error "duplicate field envTemp"
    | none => (asF64 v "envTemp").map fun q => { p with env_temp := some q }
  else if k = "rateOfRise" then
    match p.rate_of_rise with
    | some _ => .error "duplicate field rateOfRise"
    | none => (asF64 v "rateOfRise").map fun q => { p with rate_of_rise := some q }
  else if k = "heaterPWM" then
    match p.heater_pwm with
    | some _ => .error "duplicate field heaterPWM"
    | none => (asU8 v "heaterPWM").map fun n => { p with heater_pwm := some n }
  else if k = "fanPWM" then
    match p.fan_pwm with
    | some _ => .error "duplicate field fanPWM"
    | none => (asU8 v "fanPWM").map fun n => { p with fan_pwm := some n }
  else if k = "setpoint" then
    match p.setpoint with
    | some _ => .error "duplicate field setpoint"
    | none => (asF64 v "setpoint").map fun q => { p with setpoint := some q }
  else if k = "controlMode" then
    match p.control_mode with
    | some _ => .error "duplicate field controlMode"
    | none => (asU8 v "controlMode").map fun n => { p with control_mode := some n }
  else if k = "heaterEnable" then
    match p.heater_enable with
    | some _ => .error "duplicate field heaterEnable"
    | none => (asU8 v "heaterEnable").map fun n => { p with heater_enable := some n }
  else if k = "uptime" then
    match p.uptime with
    | some _ => .error "duplicate field uptime"
    | none => (asU64 v "uptime").map fun n => { p with uptime := some n }
  else .ok p

/-- After the member walk: either every field was seen, or the first
missing field (in declaration order) is reported. -/
def finishTD (p : PartialTD) : Except String TelemetryData :=
  match p.timestamp with
  | none => .error "missing field timestamp"
  | some ts =>
    match p.bean_temp with
    | none => .error "missing field beanTemp"
    | some bt =>
      match p.env_temp with
      | none => .error "missing field envTemp"
      | some et =>
        match p.rate_of_rise with
        | none => .error "missing field rateOfRise"
        | some ror =>
          match p.heater_pwm with
          | none => .error "missing field heaterPWM"
          | some hp =>
            match p.fan_pwm with
            | none => .error "missing field fanPWM"
            | some fp =>
              match p.setpoint with
              | none => .error "missing field setpoint"
              | some sp =>
                match p.control_mode with
                | none => .error "missing field controlMode"
                | some cm =>
                  match p.heater_enable with
                  | none => .error "missing field heaterEnable"
                  | some he =>
                    match p.uptime with
                    | none => .error "missing field uptime"
                    | some up => .ok ⟨ts, bt, et, ror, hp, fp, sp, cm, he, up⟩

/-- Walk an object's members in order. -/
def collectFields : PartialTD → List (String × Json) → Except String PartialTD
  | p, [] => .ok p
  | p, (k, v) :: rest =>
    match setField p k v with
    | .error e => .error e
    | .ok p' => collectFields p' rest

/-- Deserialize a JSON value into `TelemetryData`, as the `Deserialize`
derive does: only an object is accepted. -/
def fromJsonTD (j : Json) : Except String TelemetryData :=
  match j with
  | .obj kvs =>
    match collectFields {} kvs with
    | .error e => .error e
    | .ok p => finishTD p
  | _ => .error "invalid type: expected struct TelemetryData"

/-- `serde_json::from_str::<TelemetryData>` applied to a string
(main.rs line 130). -/
def decodeStr (s : String) : Except String TelemetryData :=
  match parseJson s with
  | .error e => .error e
  | .ok j => fromJsonTD j

/-! ## Bytes to text: `String::from_utf8_lossy`

Model of main.rs line 125: the payload bytes are decoded as UTF-8; each
maximal invalid subpart is replaced by U+FFFD (Rust's documented lossy
behaviour); decoding never fails. -/

/-- The replacement character U+FFFD. -/
def replChar : Char := Char.ofNat 0xFFFD

/-- UTF-8 decoding with replacement; `fuel` bounds the number of decoded
units (input length plus one always suffices). -/
def utf8LossyAux : Nat → List Nat → List Char
  | 0, _ => []
  | fuel + 1, bs =>
    match bs with
    | [] => []
    | b :: rest =>
      if b < 0x80 then Char.ofNat b :: utf8LossyAux fuel rest
      else if 0xC2 ≤ b ∧ b ≤ 0xDF then
        match rest with
        | b1 :: rest1 =>
          if 0x80 ≤ b1 ∧ b1 ≤ 0xBF then
            Char.ofNat ((b - 0xC0) * 0x40 + (b1 - 0x80)) :: utf8LossyAux fuel rest1
          else replChar :: utf8LossyAux fuel rest
        | [] => [replChar]
      else if 0xE0 ≤ b ∧ b ≤ 0xEF then
        let lo1 := if b = 0xE0 then 0xA0 else 0x80
        let hi1 := if b = 0xED then 0x9F else 0xBF
        match rest with
        | b1 :: rest1 =>
          if lo1 ≤ b1 ∧ b1 ≤ hi1 then
            match rest1 with
            | b2 :: rest2 =>
              if 0x80 ≤ b2 ∧ b2 ≤ 0xBF then
                Char.ofNat ((b - 0xE0) * 0x1000 + (b1 - 0x80) * 0x40 + (b2 - 0x80)) ::
                  utf8LossyAux fuel rest2
              else replChar :: utf8LossyAux fuel rest1
            | [] => [replChar]
          else replChar :: utf8LossyAux fuel rest
        | [] => [replChar]
      else if 0xF0 ≤ b ∧ b ≤ 0xF4 then
        let lo1 := if b = 0xF0 then 0x90 else 0x80
        let hi1 := if b = 0xF4 then 0x8F else 0xBF
        match rest with
        | b1 :: rest1 =>
          if lo1 ≤ b1 ∧ b1 ≤ hi1 then
            match rest1 with
            | b2 :: rest2 =>
              if 0x80 ≤ b2 ∧ b2 ≤ 0xBF then
                match rest2 with
                | b3 :: rest3 =>
                  if 0x80 ≤ b3 ∧ b3 ≤ 0xBF then
                    Char.ofNat
                        ((b - 0xF0) * 0x40000 + (b1 - 0x80) * 0x1000 +
                          (b2 - 0x80) * 0x40 + (b3 - 0x80)) ::
                      utf8LossyAux fuel rest3
                  else replChar :: utf8LossyAux fuel rest2
                | [] => [replChar]
              else replChar :: utf8LossyAux fuel rest1
            | [] => [replChar]
          else replChar :: utf8LossyAux fuel rest
        | [] => [replChar]
      else replChar :: utf8LossyAux fuel rest

/-- `String::from_utf8_lossy` (main.rs line 125): total, never fails. -/
def utf8Lossy (bs : List Nat) : String := ⟨utf8LossyAux (bs.length + 1) bs⟩

/-- The full decode path of the ingestion loop for one payload:
`serde_json::from_str::<TelemetryData>(&String::from_utf8_lossy(bytes))`
(main.rs lines 125 and 130). -/
def decodeBytes (bs : List Nat) : Except String TelemetryData :=
  decodeStr (utf8Lossy bs)

/-- UTF-8 bytes of an ASCII string (all payloads in the claims are
ASCII, where UTF-8 bytes and code points coincide). -/
def asciiBytes (s : String) : List Nat := s.data.map Char.toNat

/-- `true` exactly on decode failures. -/
def isErr (r : Except String TelemetryData) : Bool :=
  match r with
  | .error _ => true
  | .ok _ => false

/-- The error message of a failed decode (empty on success). -/
def errMsg (r : Except String TelemetryData) : String :=
  match r with
  | .error e => e
  | .ok _ => ""

/-! ## The shared latest-value store

`Arc<Mutex<Option<TelemetryData>>>` (main.rs line 91).  The mutex makes
writes and reads atomic; the cell is modelled as an `Option`.  The only
write in the program is line 138, `*guard = Some(data)`; the only read is
lines 102–103, `guard.clone()`. -/

/-- The write at main.rs line 138: unconditional replacement. -/
def storeSet (r : TelemetryData) (_old : Option TelemetryData) : Option TelemetryData :=
  some r

/-- The read at main.rs lines 102–103: a clone of the current value. -/
def getSnapshot (s : Option TelemetryData) : Option TelemetryData := s

/-- One serialized access to the store: a write from the ingestion loop
or a snapshot read from the emission loop (the mutex serializes them). -/
inductive StoreOp where
  | write (r : TelemetryData)
  | read

/-- Effect of one access on the cell: writes replace, reads (clones)
leave it unchanged. -/
def applyOp (s : Option TelemetryData) : StoreOp → Option TelemetryData
  | .write r => storeSet r s
  | .read => getSnapshot s

/-- Effect of a serialized access sequence. -/
def applyOps (s : Option TelemetryData) (ops : List StoreOp) : Option TelemetryData :=
  ops.foldl applyOp s

/-! ## The ingestion event loop

main.rs lines 86–157.  The telemetry topic is derived from the device id
(line 87); `client.subscribe(&telemetry_topic, QoS::AtMostOnce)` runs
once, before the loop (line 88); the loop then matches events: a publish
on the telemetry topic is decoded and, on success, stored (lines
129–143); `ConnAck` is only logged (lines 146–148); other events are
ignored (line 149); an error is logged and followed by a 5 s sleep
(lines 150–154).  `subscriptions` is the append-only log of subscribe
calls the client has issued. -/

/-- MQTT quality-of-service levels (`rumqttc::QoS`). -/
inductive MQoS where
  | atMostOnce
  | atLeastOnce
  | exactlyOnce
deriving DecidableEq

/-- The telemetry topic for a device id (main.rs line 87):
`format!("roaster/{}/telemetry", args.device_id)`. -/
def telemetryTopic (deviceId : String) : String :=
  "roaster/" ++ deviceId ++ "/telemetry"

/-- Observable bridge state: the subscribe calls issued so far and the
shared latest-value cell. -/
structure BridgeState where
  subscriptions : List (String × MQoS)
  last_telemetry : Option TelemetryData
deriving DecidableEq

/-- State after startup (main.rs lines 88 and 91): one subscription, at
most once, to the device's telemetry topic; the cell empty. -/
def initBridge (deviceId : String) : BridgeState :=
  { subscriptions := [(telemetryTopic deviceId, MQoS.atMostOnce)]
    last_telemetry := none }

/-- One event delivered by `eventloop.poll()`. -/
inductive MqttEvent where
  | publish (topic : String) (payload : List Nat)
  | connAck
  | otherIncoming
  | connError

/-- The publish branch (main.rs lines 129–143): decode only when the
topic equals the telemetry topic; store on success; leave the cell alone
on failure.  The boolean records whether a decode was attempted. -/
def handlePublish (tt topic : String) (payload : List Nat)
    (cell : Option TelemetryData) : Option TelemetryData × Bool :=
  if topic = tt then
    match decodeBytes payload with
    | .ok d => (storeSet d cell, true)
    | .error _ => (cell, true)
  else (cell, false)

/-- One iteration of the event loop (main.rs lines 121–157). -/
def stepBridge (tt : String) (s : BridgeState) (e : MqttEvent) : BridgeState :=
  match e with
  | .publish topic payload =>
    { s with last_telemetry := (handlePublish tt topic payload s.last_telemetry).1 }
  | .connAck => s
  | .otherIncoming => s
  | .connError => s

/-- The event loop over a finite event trace. -/
def runBridge (tt : String) (s : BridgeState) (es : List MqttEvent) : BridgeState :=
  es.foldl (stepBridge tt) s

/-! ## The emission task

main.rs lines 94–117: every tick, snapshot the cell; if empty do
nothing; otherwise frame the record and write the line; a write error is
only logged.  The loop body holds no state of its own, so a trace of
ticks is a map over per-tick inputs (snapshot, transport health). -/

/-- What one emission tick did. -/
inductive TickResult where
  | idle
  | wrote (line : String)
  | failed (line : String)
deriving DecidableEq

/-- One tick of the emission task (main.rs lines 99–115). -/
def emitTick (snap : Option TelemetryData) (writeOk : Bool) : TickResult :=
  match snap with
  | none => .idle
  | some t =>
    let line := frame t
    if writeOk then .wrote line else .failed line

/-- A run of emission ticks; the loop carries nothing between ticks. -/
def runEmission (ticks : List (Option TelemetryData × Bool)) : List TickResult :=
  ticks.map fun p => emitTick p.1 p.2

/-! ## Concrete payloads used by the claims -/

/-- The payload of claim C1 (spec §8). -/
def c1Payload : String :=
  "\x7b\"timestamp\":1,\"beanTemp\":152.34,\"envTemp\":201.0,\"rateOfRise\":3.2,\"heaterPWM\":80,\"fanPWM\":50,\"setpoint\":205.0,\"controlMode\":1,\"heaterEnable\":1,\"uptime\":3600\x7d"

/-- The record the C1 payload decodes to. -/
def c1Record : TelemetryData :=
  { timestamp := 1
    bean_temp := mkRat 15234 100
    env_temp := mkRat 2010 10
    rate_of_rise := mkRat 32 10
    heater_pwm := 80
    fan_pwm := 50
    setpoint := mkRat 2050 10
    control_mode := 1
    heater_enable := 1
    uptime := 3600 }

/-- A string renders a value "with exactly one digit after the decimal
point": an optional minus sign, a nonempty digit run, one dot, one
digit — and nothing else. -/
def oneDecimalRendering (s : String) : Prop :=
  ∃ (sign : String) (ds : List Char) (d : Char),
    s.data = sign.data ++ ds ++ ['.', d]
    ∧ (sign = "" ∨ sign = "-")
    ∧ ds ≠ []
    ∧ (∀ c ∈ ds, c.isDigit = true)
    ∧ d.isDigit = true

/-! ## Payload variants used by the claims about decoding -/

/-- The members of the C1 payload's object, as parsed. -/
def baseMembers : List (String × Json) :=
  [("timestamp", .num (.int 1)),
   ("beanTemp", .num (.float (mkRat 15234 100))),
   ("envTemp", .num (.float (mkRat 2010 10))),
   ("rateOfRise", .num (.float (mkRat 32 10))),
   ("heaterPWM", .num (.int 80)),
   ("fanPWM", .num (.int 50)),
   ("setpoint", .num (.float (mkRat 2050 10))),
   ("controlMode", .num (.int 1)),
   ("heaterEnable", .num (.int 1)),
   ("uptime", .num (.int 3600))]

/-- The C1 object with the value of one field replaced. -/
def withField (k : String) (v : Json) : Json :=
  Json.obj (baseMembers.map fun kv => if kv.1 = k then (k, v) else kv)

/-- The C1 object with all four `f64` fields replaced. -/
def mkFloatsJson (bt et ror sp : ℚ) : Json :=
  Json.obj
    [("timestamp", .num (.int 1)),
     ("beanTemp", .num (.float bt)),
     ("envTemp", .num (.float et)),
     ("rateOfRise", .num (.float ror)),
     ("heaterPWM", .num (.int 80)),
     ("fanPWM", .num (.int 50)),
     ("setpoint", .num (.float sp)),
     ("controlMode", .num (.int 1)),
     ("heaterEnable", .num (.int 1)),
     ("uptime", .num (.int 3600))]

/-- Partial record after the first four members of the C1 object. -/
def pPreHP : PartialTD :=
  { timestamp := some 1
    bean_temp := some (mkRat 15234 100)
    env_temp := some (mkRat 2010 10)
    rate_of_rise := some (mkRat 32 10) }

/-- Partial record after the first five members of the C1 object. -/
def pPreFP : PartialTD :=
  { pPreHP with heater_pwm := some 80 }

/-- Partial record after the first seven members of the C1 object. -/
def pPreCM : PartialTD :=
  { pPreFP with fan_pwm := some 50, setpoint := some (mkRat 2050 10) }

/-- Partial record after the first eight members of the C1 object. -/
def pPreHE : PartialTD :=
  { pPreCM with control_mode := some 1 }

/-- Partial record after the first nine members of the C1 object. -/
def pPreUP : PartialTD :=
  { pPreHE with heater_enable := some 1 }

/-- Partial record after all ten members of the C1 object. -/
def pFullC1 : PartialTD :=
  { pPreUP with uptime := some 3600 }

/-- The C1 payload with `heaterPWM` set to 300: all ten fields present
with numeric values, one outside the `u8` range. -/
def c4PayloadHp300 : String :=
  "\x7b\"timestamp\":1,\"beanTemp\":152.34,\"envTemp\":201.0,\"rateOfRise\":3.2,\"heaterPWM\":300,\"fanPWM\":50,\"setpoint\":205.0,\"controlMode\":1,\"heaterEnable\":1,\"uptime\":3600\x7d"

/-- The C1 payload with a negative `timestamp`: all ten fields present
with numeric values, one outside the `u64` range. -/
def c4PayloadNegTs : String :=
  "\x7b\"timestamp\":-5,\"beanTemp\":152.34,\"envTemp\":201.0,\"rateOfRise\":3.2,\"heaterPWM\":80,\"fanPWM\":50,\"setpoint\":205.0,\"controlMode\":1,\"heaterEnable\":1,\"uptime\":3600\x7d"

/-- The C1 payload with the `beanTemp` member removed. -/
def c5MissingPayload : String :=
  "\x7b\"timestamp\":1,\"envTemp\":201.0,\"rateOfRise\":3.2,\"heaterPWM\":80,\"fanPWM\":50,\"setpoint\":205.0,\"controlMode\":1,\"heaterEnable\":1,\"uptime\":3600\x7d"

/-- The C1 payload with `beanTemp` bound to a string instead of a
number. -/
def c5MismatchPayload : String :=
  "\x7b\"timestamp\":1,\"beanTemp\":\"hot\",\"envTemp\":201.0,\"rateOfRise\":3.2,\"heaterPWM\":80,\"fanPWM\":50,\"setpoint\":205.0,\"controlMode\":1,\"heaterEnable\":1,\"uptime\":3600\x7d"

/-! ## Helper lemmas -/

example : fmt1 (mkRat 15234 100) = "152.3" := by decide
example : fmt1 (mkRat 2010 10) = "201.0" := by decide
example : fmt1 (mkRat (-15234) 100) = "-152.3" := by decide
example : fmt1 (mkRat 0 1) = "0.0" := by decide
example : fmt1 (mkRat 25 100) = "0.2" := by decide
example : (decodeStr c1Payload).toOption = some c1Record := by decide
example : frame c1Record = "152.3,201.0\n" := by decide


/-- A run of read-only accesses leaves the cell unchanged. -/
theorem applyOps_reads (s : Option TelemetryData) (ops : List StoreOp)
    (h : ∀ op ∈ ops, op = StoreOp.read) : applyOps s ops = s := by
  induction ops generalizing s with
  | nil => rfl
  | cons op rest ih =>
    have hop : op = StoreOp.read := h op (List.mem_cons_self op rest)
    subst hop
    exact ih s fun op' h' => h op' (List.mem_cons_of_mem _ h')

/-- Every loop iteration leaves the subscription log unchanged: no code
path after startup calls `subscribe`. -/
theorem stepBridge_subscriptions (tt : String) (s : BridgeState) (e : MqttEvent) :
    (stepBridge tt s e).subscriptions = s.subscriptions := by
  cases e <;> rfl

/-- A whole trace leaves the subscription log unchanged. -/
theorem runBridge_subscriptions (tt : String) (s : BridgeState) (es : List MqttEvent) :
    (runBridge tt s es).subscriptions = s.subscriptions := by
  induction es generalizing s with
  | nil => rfl
  | cons e rest ih =>
    show (runBridge tt (stepBridge tt s e) rest).subscriptions = _
    rw [ih, stepBridge_subscriptions]

/-! ## Claim C1 -/

/-- C1 (as stated, refuted): the C1 payload decodes to `c1Record` and the
emission path frames it as the line `"152.3,201.0\n"` — but that line is
twelve bytes (it is pure ASCII, one byte per character), not nine as the
claim says. -/
theorem c1_nine_bytes_counterexample :
    (decodeStr c1Payload).toOption = some c1Record
  ∧ emitTick (getSnapshot (some c1Record)) true = TickResult.wrote "152.3,201.0\n"
  ∧ (frame c1Record).data.length = 12
  ∧ (∀ c ∈ (frame c1Record).data, c.toNat < 128)
  ∧ ¬ (frame c1Record).data.length = 9 := by
  refine ⟨by decide, by decide, by decide, by decide, by decide⟩

/-- C1 (amended: the line is twelve bytes, not nine): delivering the C1
payload on the subscribed telemetry topic stores `c1Record`, and the
emission tick writes exactly the twelve ASCII bytes `"152.3,201.0\n"`. -/
theorem c1_payload_to_line :
    (stepBridge (telemetryTopic "esp32_roaster_01") (initBridge "esp32_roaster_01")
        (MqttEvent.publish (telemetryTopic "esp32_roaster_01")
          (asciiBytes c1Payload))).last_telemetry = some c1Record
  ∧ emitTick (getSnapshot (some c1Record)) true = TickResult.wrote "152.3,201.0\n"
  ∧ (frame c1Record).data.length = 12
  ∧ (∀ c ∈ (frame c1Record).data, c.toNat < 128) := by
  refine ⟨by decide, by decide, by decide, by decide⟩

/-! ## Claim C3 -/

/-- C3 (as stated, refuted): after a transport error followed by a
reconnection (`ConnAck`), the bridge state — including the subscription
log — is exactly the startup state: entering `Connected` does not
(re)issue the subscription; the only subscribe call is the single one at
startup. -/
theorem c3_resubscribe_counterexample :
    runBridge (telemetryTopic "esp32_roaster_01") (initBridge "esp32_roaster_01")
        [MqttEvent.connError, MqttEvent.connAck]
      = initBridge "esp32_roaster_01"
  ∧ (initBridge "esp32_roaster_01").subscriptions.length = 1 := by
  exact ⟨rfl, rfl⟩

/-- C3 (amended): the subscription to the device's telemetry topic is
issued exactly once, at startup before the event loop, at at-most-once
quality of service; no later event — in particular not the `ConnAck` of a
reconnection — issues another subscribe call or removes the entry. -/
theorem c3_subscribe_once_at_startup (d : String) (es : List MqttEvent) :
    (runBridge (telemetryTopic d) (initBridge d) es).subscriptions
      = [(telemetryTopic d, MQoS.atMostOnce)] := by
  rw [runBridge_subscriptions]
  rfl

/-! ## Claim C6 -/

/-- C6: the store is last-write-wins: `set` replaces unconditionally,
`get_snapshot` of the never-set store is empty, and after any serialized
access sequence whose last write is `R` — with any read-only accesses
after it, modelling concurrent emission snapshots — `get_snapshot`
returns exactly `R`. -/
theorem c6_store_last_write_wins :
    (∀ (r : TelemetryData) (s : Option TelemetryData), storeSet r s = some r)
  ∧ getSnapshot none = none
  ∧ ∀ (s0 : Option TelemetryData) (pre post : List StoreOp) (R : TelemetryData),
      (∀ op ∈ post, op = StoreOp.read) →
      getSnapshot (applyOps s0 (pre ++ StoreOp.write R :: post)) = some R := by
  refine ⟨fun r s => rfl, rfl, fun s0 pre post R h => ?_⟩
  unfold applyOps
  rw [List.foldl_append]
  show getSnapshot (applyOps (applyOp (applyOps s0 pre) (StoreOp.write R)) post) = some R
  rw [applyOps_reads _ post h]
  rfl

/-- Witness for C6 at concrete inputs: two writes then a concurrent
read — the snapshot is the last-written record. -/
theorem c6_store_last_write_wins_witness :
    getSnapshot (applyOps none
        ([StoreOp.write { c1Record with bean_temp := mkRat 1 1 }]
          ++ StoreOp.write c1Record :: [StoreOp.read]))
      = some c1Record :=
  c6_store_last_write_wins.2.2 none _ [StoreOp.read] c1Record
    (fun op h => by simpa using h)

/-! ## Claim C7 -/

/-- C7: a publish on a different topic is ignored without attempting a
decode (the boolean of `handlePublish` records whether the decode branch
ran), and a failed decode leaves the cell unchanged. -/
theorem c7_no_state_change_on_failure (tt topic : String) (payload : List Nat)
    (cell : Option TelemetryData) :
    (topic ≠ tt → handlePublish tt topic payload cell = (cell, false))
  ∧ (isErr (decodeBytes payload) = true → (handlePublish tt topic payload cell).1 = cell) := by
  constructor
  · intro hne
    unfold handlePublish
    rw [if_neg hne]
  · intro herr
    unfold handlePublish
    cases hd : decodeBytes payload with
    | ok d => rw [hd] at herr; simp [isErr] at herr
    | error e =>
      by_cases ht : topic = tt
      · rw [if_pos ht]
      · rw [if_neg ht]

/-- Witness for C7: a publish on another topic, and a publish with an
undecodable (empty) payload on the right topic; the cell stays empty. -/
theorem c7_no_state_change_on_failure_witness :
    handlePublish (telemetryTopic "esp32_roaster_01") "roaster/other/status" [] none
      = (none, false)
  ∧ (handlePublish (telemetryTopic "esp32_roaster_01")
        (telemetryTopic "esp32_roaster_01") [] none).1 = none :=
  ⟨(c7_no_state_change_on_failure _ _ _ _).1 (by decide),
   (c7_no_state_change_on_failure _ _ _ _).2 (by decide)⟩

/-! ## Claim C8 -/

/-- C8: the cell starts empty and is never cleared: once some record is
stored, every loop iteration leaves some record stored, and after a
connection drop the emission tick still writes the last known line. -/
theorem c8_never_cleared :
    (∀ d : String, (initBridge d).last_telemetry = none)
  ∧ (∀ (tt : String) (s : BridgeState) (e : MqttEvent) (r : TelemetryData),
      s.last_telemetry = some r →
      ∃ r', (stepBridge tt s e).last_telemetry = some r')
  ∧ (∀ (tt : String) (s : BridgeState) (r : TelemetryData),
      s.last_telemetry = some r →
      emitTick (getSnapshot ((stepBridge tt s MqttEvent.connError).last_telemetry)) true
        = TickResult.wrote (frame r)) := by
  refine ⟨fun d => rfl, ?_, ?_⟩
  · intro tt s e r h
    cases e with
    | publish topic payload =>
      show ∃ r', (handlePublish tt topic payload s.last_telemetry).1 = some r'
      unfold handlePublish
      by_cases ht : topic = tt
      · rw [if_pos ht]
        cases hd : decodeBytes payload with
        | ok d => exact ⟨d, rfl⟩
        | error e => exact ⟨r, h⟩
      · rw [if_neg ht]
        exact ⟨r, h⟩
    | connAck => exact ⟨r, h⟩
    | otherIncoming => exact ⟨r, h⟩
    | connError => exact ⟨r, h⟩
  · intro tt s r h
    show emitTick (getSnapshot s.last_telemetry) true = _
    rw [h]
    rfl

/-- Witness for C8: from a state holding `c1Record`, a connection error
leaves a record stored and the next tick writes its line. -/
theorem c8_never_cleared_witness :
    (∃ r', (stepBridge (telemetryTopic "esp32_roaster_01")
        { subscriptions := [], last_telemetry := some c1Record }
        MqttEvent.connError).last_telemetry = some r')
  ∧ emitTick (getSnapshot ((stepBridge (telemetryTopic "esp32_roaster_01")
        { subscriptions := [], last_telemetry := some c1Record }
        MqttEvent.connError).last_telemetry)) true
      = TickResult.wrote (frame c1Record) :=
  ⟨c8_never_cleared.2.1 _ _ MqttEvent.connError c1Record rfl,
   c8_never_cleared.2.2 _ _ c1Record rfl⟩

/-! ## Claim C9 -/

/-- C9: the emission loop carries no state between ticks, so a failed
write on one tick is absorbed there: appending a failing tick and then a
tick with a working transport to any trace yields exactly a logged
failure followed by a normal successful write. -/
theorem c9_write_failure_absorbed (pre : List (Option TelemetryData × Bool))
    (t t' : TelemetryData) :
    runEmission (pre ++ [(some t, false), (some t', true)])
      = runEmission pre ++ [TickResult.failed (frame t), TickResult.wrote (frame t')] := by
  unfold runEmission
  rw [List.map_append]
  rfl

/-! ## Claim C2: shape of the framed line -/

/-- `digitChar` of a digit is a decimal digit character. -/
theorem digitChar_isDigit (d : Nat) (h : d < 10) : (digitChar d).isDigit = true := by
  interval_cases d <;> decide

/-- Every character produced by `natToDigitsAux` is a decimal digit. -/
theorem natToDigitsAux_isDigit :
    ∀ (fuel n : Nat), ∀ c ∈ natToDigitsAux fuel n, c.isDigit = true := by
  intro fuel
  induction fuel with
  | zero => intro n c hc; simp [natToDigitsAux] at hc
  | succ f ih =>
    intro n c hc
    unfold natToDigitsAux at hc
    by_cases h : n < 10
    · rw [if_pos h] at hc
      simp at hc
      subst hc
      exact digitChar_isDigit n h
    · rw [if_neg h] at hc
      rcases List.mem_append.mp hc with h1 | h2
      · exact ih _ c h1
      · simp at h2
        subst h2
        exact digitChar_isDigit _ (Nat.mod_lt _ (by omega))

/-- `natToDigitsAux` with positive fuel is never empty. -/
theorem natToDigitsAux_ne_nil (f n : Nat) : natToDigitsAux (f + 1) n ≠ [] := by
  unfold natToDigitsAux
  by_cases h : n < 10
  · rw [if_pos h]; simp
  · rw [if_neg h]; simp

/-- The rendering of a single digit is that one character. -/
theorem natRepr_data_single (m : Nat) (h : m < 10) : (natRepr m).data = [digitChar m] := by
  show natToDigitsAux (m + 1) m = [digitChar m]
  unfold natToDigitsAux
  rw [if_pos h]

/-- `fmt1` always renders with exactly one digit after the decimal
point. -/
theorem fmt1_oneDecimal (q : ℚ) : oneDecimalRendering (fmt1 q) := by
  refine ⟨if roundTenthsHalfEven q < 0 then "-" else "",
    (natRepr ((roundTenthsHalfEven q).natAbs / 10)).data,
    digitChar ((roundTenthsHalfEven q).natAbs % 10), ?_, ?_, ?_, ?_, ?_⟩
  · show ((if roundTenthsHalfEven q < 0 then "-" else "") ++
        natRepr ((roundTenthsHalfEven q).natAbs / 10) ++ "." ++
        natRepr ((roundTenthsHalfEven q).natAbs % 10)).data = _
    rw [String.data_append, String.data_append, String.data_append,
      natRepr_data_single _ (Nat.mod_lt _ (by omega))]
    simp
  · split
    · right; rfl
    · left; rfl
  · exact natToDigitsAux_ne_nil _ _
  · exact natToDigitsAux_isDigit _ _
  · exact digitChar_isDigit _ (Nat.mod_lt _ (by omega))

/-- Every character of a `fmt1` rendering is a digit, the dot, or a
minus sign. -/
theorem fmt1_chars (q : ℚ) :
    ∀ c ∈ (fmt1 q).data, c.isDigit = true ∨ c = '.' ∨ c = '-' := by
  obtain ⟨sign, ds, d, hdata, hsign, -, hds, hd⟩ := fmt1_oneDecimal q
  intro c hc
  rw [hdata] at hc
  rcases List.mem_append.mp hc with h1 | h2
  · rcases List.mem_append.mp h1 with h3 | h4
    · rcases hsign with h | h <;> subst h
      · simp at h3
      · simp at h3
        subst h3
        right; right; rfl
    · exact Or.inl (hds c h4)
  · simp at h2
    rcases h2 with h | h <;> subst h
    · right; left; rfl
    · exact Or.inl hd

/-- A `fmt1` rendering contains no comma. -/
theorem fmt1_count_comma (q : ℚ) : (fmt1 q).data.count ',' = 0 := by
  rw [List.count_eq_zero]
  intro hmem
  rcases fmt1_chars q ',' hmem with h | h | h <;> simp at h

/-- A `fmt1` rendering contains no newline. -/
theorem fmt1_count_newline (q : ℚ) : (fmt1 q).data.count '\n' = 0 := by
  rw [List.count_eq_zero]
  intro hmem
  rcases fmt1_chars q '\n' hmem with h | h | h <;> simp at h

/-- C2: the framed line is `fmt1 bean_temp`, one comma, `fmt1 env_temp`,
one terminating newline; both values are rendered with exactly one digit
after the decimal point; the line contains exactly one comma and exactly
one newline; and no field other than `bean_temp` and `env_temp`
influences the line. -/
theorem c2_frame_format (t : TelemetryData) :
    frame t = fmt1 t.bean_temp ++ "," ++ fmt1 t.env_temp ++ "\n"
  ∧ oneDecimalRendering (fmt1 t.bean_temp)
  ∧ oneDecimalRendering (fmt1 t.env_temp)
  ∧ (frame t).data.count ',' = 1
  ∧ (frame t).data.count '\n' = 1
  ∧ (∃ s : String, frame t = s ++ "\n")
  ∧ ∀ t' : TelemetryData, t'.bean_temp = t.bean_temp → t'.env_temp = t.env_temp →
      frame t' = frame t := by
  have hdata : (frame t).data
      = (fmt1 t.bean_temp).data ++ [','] ++ (fmt1 t.env_temp).data ++ ['\n'] := by
    show ((fmt1 t.bean_temp ++ "," ++ fmt1 t.env_temp ++ "\n")).data = _
    rw [String.data_append, String.data_append, String.data_append]
  refine ⟨rfl, fmt1_oneDecimal _, fmt1_oneDecimal _, ?_, ?_, ⟨fmt1 t.bean_temp ++ "," ++ fmt1 t.env_temp, rfl⟩, ?_⟩
  · rw [hdata]
    simp [List.count_append, fmt1_count_comma]
  · rw [hdata]
    simp [List.count_append, fmt1_count_newline]
  · intro t' h1 h2
    show fmt1 t'.bean_temp ++ "," ++ fmt1 t'.env_temp ++ "\n" = _
    rw [h1, h2]
    rfl

/-- Witness for C2 at the record of the C1 payload: its line has the
stated shape, and changing an unrelated field leaves the line
unchanged. -/
theorem c2_frame_format_witness :
    oneDecimalRendering (fmt1 c1Record.bean_temp)
  ∧ (frame c1Record).data.count ',' = 1
  ∧ frame { c1Record with heater_pwm := 0 } = frame c1Record :=
  ⟨(c2_frame_format c1Record).2.1,
   (c2_frame_format c1Record).2.2.2.1,
   (c2_frame_format c1Record).2.2.2.2.2.2 _ rfl rfl⟩

/-! ## Claims C4, C5, C10: decoding lemmas

The member walk is evaluated definitionally on the concrete members of
the C1 object; each `fromJsonTD_withField_*` lemma reduces decoding of
the object with one replaced value to the field's deserializer. -/

/-- The member walk splits over list append. -/
theorem collectFields_append (p : PartialTD) (l1 l2 : List (String × Json)) :
    collectFields p (l1 ++ l2)
      = match collectFields p l1 with
        | Except.error e => Except.error e
        | Except.ok p' => collectFields p' l2 := by
  induction l1 generalizing p with
  | nil => rfl
  | cons kv rest ih =>
    cases kv with
    | mk k v =>
      show (match setField p k v with
            | Except.error e => Except.error e
            | Except.ok p' => collectFields p' (rest ++ l2))
          = (match (match setField p k v with
                    | Except.error e => Except.error e
                    | Except.ok p' => collectFields p' rest) with
             | Except.error e => Except.error e
             | Except.ok p' => collectFields p' l2)
      cases setField p k v with
      | error e => rfl
      | ok p' => exact ih p'

/-- Decoding with a replaced `timestamp` value reduces to `asU64`. -/
theorem fromJsonTD_withField_ts (v : Json) :
    fromJsonTD (withField "timestamp" v)
      = (asU64 v "timestamp").map fun n => { c1Record with timestamp := n } := by
  show (match (match (asU64 v "timestamp").map
                  (fun n => { ({} : PartialTD) with timestamp := some n }) with
              | Except.error err => Except.error err
              | Except.ok p' => collectFields p' (baseMembers.drop 1)) with
        | Except.error e => Except.error e
        | Except.ok p => finishTD p) = _
  cases asU64 v "timestamp" with
  | error e => rfl
  | ok n => rfl

/-- Decoding with a replaced `heaterPWM` value reduces to `asU8`. -/
theorem fromJsonTD_withField_hp (v : Json) :
    fromJsonTD (withField "heaterPWM" v)
      = (asU8 v "heaterPWM").map fun n => { c1Record with heater_pwm := n } := by
  show (match (match (asU8 v "heaterPWM").map
                  (fun n => { pPreHP with heater_pwm := some n }) with
              | Except.error err => Except.error err
              | Except.ok p' => collectFields p' (baseMembers.drop 5)) with
        | Except.error e => Except.error e
        | Except.ok p => finishTD p) = _
  cases asU8 v "heaterPWM" with
  | error e => rfl
  | ok n => rfl

/-- Decoding with a replaced `fanPWM` value reduces to `asU8`. -/
theorem fromJsonTD_withField_fp (v : Json) :
    fromJsonTD (withField "fanPWM" v)
      = (asU8 v "fanPWM").map fun n => { c1Record with fan_pwm := n } := by
  show (match (match (asU8 v "fanPWM").map
                  (fun n => { pPreFP with fan_pwm := some n }) with
              | Except.error err => Except.error err
              | Except.ok p' => collectFields p' (baseMembers.drop 6)) with
        | Except.error e => Except.error e
        | Except.ok p => finishTD p) = _
  cases asU8 v "fanPWM" with
  | error e => rfl
  | ok n => rfl

/-- Decoding with a replaced `controlMode` value reduces to `asU8`. -/
theorem fromJsonTD_withField_cm (v : Json) :
    fromJsonTD (withField "controlMode" v)
      = (asU8 v "controlMode").map fun n => { c1Record with control_mode := n } := by
  show (match (match (asU8 v "controlMode").map
                  (fun n => { pPreCM with control_mode := some n }) with
              | Except.error err => Except.error err
              | Except.ok p' => collectFields p' (baseMembers.drop 8)) with
        | Except.error e => Except.error e
        | Except.ok p => finishTD p) = _
  cases asU8 v "controlMode" with
  | error e => rfl
  | ok n => rfl

/-- Decoding with a replaced `heaterEnable` value reduces to `asU8`. -/
theorem fromJsonTD_withField_he (v : Json) :
    fromJsonTD (withField "heaterEnable" v)
      = (asU8 v "heaterEnable").map fun n => { c1Record with heater_enable := n } := by
  show (match (match (asU8 v "heaterEnable").map
                  (fun n => { pPreHE with heater_enable := some n }) with
              | Except.error err => Except.error err
              | Except.ok p' => collectFields p' (baseMembers.drop 9)) with
        | Except.error e => Except.error e
        | Except.ok p => finishTD p) = _
  cases asU8 v "heaterEnable" with
  | error e => rfl
  | ok n => rfl

/-- Decoding with a replaced `uptime` value reduces to `asU64`. -/
theorem fromJsonTD_withField_up (v : Json) :
    fromJsonTD (withField "uptime" v)
      = (asU64 v "uptime").map fun n => { c1Record with uptime := n } := by
  show (match (match (asU64 v "uptime").map
                  (fun n => { pPreUP with uptime := some n }) with
              | Except.error err => Except.error err
              | Except.ok p' => collectFields p' (baseMembers.drop 10)) with
        | Except.error e => Except.error e
        | Except.ok p => finishTD p) = _
  cases asU64 v "uptime" with
  | error e => rfl
  | ok n => rfl

/-- `asU8` accepts every integer in `[0, 255]`. -/
theorem asU8_int_in_range (z : Int) (name : String) (h0 : 0 ≤ z) (h255 : z ≤ 255) :
    asU8 (Json.num (JNum.int z)) name = Except.ok z.toNat := by
  show (if 0 ≤ z ∧ z ≤ 255 then Except.ok z.toNat else _) = _
  rw [if_pos ⟨h0, h255⟩]

/-- `asU8` rejects every integer outside `[0, 255]`. -/
theorem asU8_int_out_of_range (z : Int) (name : String) (h : z < 0 ∨ 255 < z) :
    asU8 (Json.num (JNum.int z)) name
      = Except.error ("invalid value: integer out of range for u8 field " ++ name) := by
  show (if 0 ≤ z ∧ z ≤ 255 then Except.ok z.toNat else _) = _
  rw [if_neg (by omega)]

/-- `asU64` accepts every integer in `[0, 2^64)`. -/
theorem asU64_int_in_range (z : Int) (name : String) (h0 : 0 ≤ z) (hlt : z < 2 ^ 64) :
    asU64 (Json.num (JNum.int z)) name = Except.ok z.toNat := by
  show (if 0 ≤ z ∧ z < 2 ^ 64 then Except.ok z.toNat else _) = _
  rw [if_pos ⟨h0, hlt⟩]

/-- `asU64` rejects every integer outside `[0, 2^64)`. -/
theorem asU64_int_out_of_range (z : Int) (name : String) (h : z < 0 ∨ 2 ^ 64 ≤ z) :
    asU64 (Json.num (JNum.int z)) name
      = Except.error ("invalid value: integer out of range for u64 field " ++ name) := by
  show (if 0 ≤ z ∧ z < 2 ^ 64 then Except.ok z.toNat else _) = _
  rw [if_neg (by omega)]

/-! ## Claim C4 -/

/-- C4 (as stated, refuted): a payload whose ten fields are all present
with numeric values can still fail to decode — `heaterPWM: 300` is
rejected by the `u8` range, and `timestamp: -5` by the `u64` range. -/
theorem c4_no_range_validation_counterexample :
    isErr (decodeStr c4PayloadHp300) = true
  ∧ errMsg (decodeStr c4PayloadHp300)
      = "invalid value: integer out of range for u8 field heaterPWM"
  ∧ isErr (decodeStr c4PayloadNegTs) = true := by
  refine ⟨by decide, by decide, by decide⟩

/-- C4 (amended): decoding applies no range validation beyond what the
declared field types impose.  The four `f64` fields accept any parsed
numeric value verbatim, regardless of magnitude or sign; the `u8` fields
require an integer in `[0, 255]` and the `u64` fields a non-negative
integer below `2^64`, rejecting anything else. -/
theorem c4_range_checks_by_declared_type :
    (∀ bt et ror sp : ℚ,
        fromJsonTD (mkFloatsJson bt et ror sp)
          = Except.ok { c1Record with
              bean_temp := bt, env_temp := et, rate_of_rise := ror, setpoint := sp })
  ∧ (∀ z : Int, 0 ≤ z → z ≤ 255 →
        fromJsonTD (withField "heaterPWM" (Json.num (JNum.int z)))
          = Except.ok { c1Record with heater_pwm := z.toNat })
  ∧ (∀ z : Int, z < 0 ∨ 255 < z →
        isErr (fromJsonTD (withField "heaterPWM" (Json.num (JNum.int z)))) = true)
  ∧ (∀ z : Int, 0 ≤ z → z < 2 ^ 64 →
        fromJsonTD (withField "timestamp" (Json.num (JNum.int z)))
          = Except.ok { c1Record with timestamp := z.toNat })
  ∧ (∀ z : Int, z < 0 →
        isErr (fromJsonTD (withField "timestamp" (Json.num (JNum.int z)))) = true) := by
  refine ⟨fun bt et ror sp => rfl, ?_, ?_, ?_, ?_⟩
  · intro z h0 h255
    rw [fromJsonTD_withField_hp, asU8_int_in_range z _ h0 h255]
    rfl
  · intro z h
    rw [fromJsonTD_withField_hp, asU8_int_out_of_range z _ h]
    rfl
  · intro z h0 hlt
    rw [fromJsonTD_withField_ts, asU64_int_in_range z _ h0 hlt]
    rfl
  · intro z h
    rw [fromJsonTD_withField_ts, asU64_int_out_of_range z _ (Or.inl h)]
    rfl

/-- Witness for C4 (amended): a huge negative bean temperature is
accepted verbatim; `heaterPWM = 255` is accepted; `heaterPWM = 300` and
`timestamp = -5` are rejected. -/
theorem c4_range_checks_by_declared_type_witness :
    fromJsonTD (mkFloatsJson (mkRat (-999999) 1) (mkRat 1 3) (mkRat 0 1) (mkRat 1000000 1))
      = Except.ok { c1Record with
          bean_temp := mkRat (-999999) 1
          env_temp := mkRat 1 3
          rate_of_rise := mkRat 0 1
          setpoint := mkRat 1000000 1 }
  ∧ fromJsonTD (withField "heaterPWM" (Json.num (JNum.int 255)))
      = Except.ok { c1Record with heater_pwm := (255 : Int).toNat }
  ∧ isErr (fromJsonTD (withField "heaterPWM" (Json.num (JNum.int 300)))) = true
  ∧ isErr (fromJsonTD (withField "timestamp" (Json.num (JNum.int (-5))))) = true :=
  ⟨c4_range_checks_by_declared_type.1 _ _ _ _,
   c4_range_checks_by_declared_type.2.1 255 (by decide) (by decide),
   c4_range_checks_by_declared_type.2.2.1 300 (by decide),
   c4_range_checks_by_declared_type.2.2.2.2 (-5) (by decide)⟩

/-! ## Claim C5 -/

/-- C5: the byte-to-record decode path is total: invalid UTF-8 is
replaced with U+FFFD rather than failing; a missing field and a
type-mismatched field produce a decode error whose message names the
field; and a payload with an unknown extra member alongside all required
members still decodes to the same record. -/
theorem c5_decode_total_structured :
    utf8Lossy [0x68, 0xFF, 0x69] = "h�i"
  ∧ (∀ bs : List Nat, decodeBytes bs = decodeStr (utf8Lossy bs))
  ∧ isErr (decodeStr c5MissingPayload) = true
  ∧ errMsg (decodeStr c5MissingPayload) = "missing field beanTemp"
  ∧ isErr (decodeStr c5MismatchPayload) = true
  ∧ errMsg (decodeStr c5MismatchPayload) = "invalid type for field beanTemp, expected f64"
  ∧ (∀ (k : String) (v : Json),
      k ≠ "timestamp" → k ≠ "beanTemp" → k ≠ "envTemp" → k ≠ "rateOfRise" →
      k ≠ "heaterPWM" → k ≠ "fanPWM" → k ≠ "setpoint" → k ≠ "controlMode" →
      k ≠ "heaterEnable" → k ≠ "uptime" →
      fromJsonTD (Json.obj (baseMembers ++ [(k, v)])) = Except.ok c1Record) := by
  refine ⟨by decide, fun bs => rfl, by decide, by decide, by decide, by decide, ?_⟩
  intro k v h1 h2 h3 h4 h5 h6 h7 h8 h9 h10
  have hs : setField pFullC1 k v = Except.ok pFullC1 := by
    unfold setField
    rw [if_neg h1, if_neg h2, if_neg h3, if_neg h4, if_neg h5, if_neg h6, if_neg h7,
      if_neg h8, if_neg h9, if_neg h10]
  show (match (match setField pFullC1 k v with
              | Except.error err => Except.error err
              | Except.ok p' => collectFields p' ([] : List (String × Json))) with
        | Except.error e => Except.error e
        | Except.ok p => finishTD p) = _
  rw [hs]
  rfl

/-- Witness for C5: the claim instantiated with the extra member
`"firmware": "1.2.0"`. -/
theorem c5_decode_total_structured_witness :
    errMsg (decodeStr c5MissingPayload) = "missing field beanTemp"
  ∧ fromJsonTD (Json.obj (baseMembers ++ [("firmware", Json.str "1.2.0")]))
      = Except.ok c1Record :=
  ⟨c5_decode_total_structured.2.2.2.1,
   c5_decode_total_structured.2.2.2.2.2.2 "firmware" (Json.str "1.2.0")
     (by decide) (by decide) (by decide) (by decide) (by decide) (by decide) (by decide)
     (by decide) (by decide) (by decide)⟩

/-! ## Claim C10 -/

/-- C10: `heaterEnable` and `controlMode` accept every integer in
`[0, 255]` (not only the 0/1 flag values), carried unchanged into the
record; an integer outside `[0, 255]` in any `u8` field is rejected; and
a floating-point value — in particular any fractional one — in any of
the six integer fields is rejected. -/
theorem c10_integer_field_typing :
    (∀ z : Int, 0 ≤ z → z ≤ 255 →
        fromJsonTD (withField "heaterEnable" (Json.num (JNum.int z)))
          = Except.ok { c1Record with heater_enable := z.toNat })
  ∧ (∀ z : Int, 0 ≤ z → z ≤ 255 →
        fromJsonTD (withField "controlMode" (Json.num (JNum.int z)))
          = Except.ok { c1Record with control_mode := z.toNat })
  ∧ (∀ z : Int, z < 0 ∨ 255 < z →
        isErr (fromJsonTD (withField "heaterEnable" (Json.num (JNum.int z)))) = true)
  ∧ (∀ z : Int, z < 0 ∨ 255 < z →
        isErr (fromJsonTD (withField "controlMode" (Json.num (JNum.int z)))) = true)
  ∧ (∀ z : Int, z < 0 ∨ 255 < z →
        isErr (fromJsonTD (withField "heaterPWM" (Json.num (JNum.int z)))) = true)
  ∧ (∀ z : Int, z < 0 ∨ 255 < z →
        isErr (fromJsonTD (withField "fanPWM" (Json.num (JNum.int z)))) = true)
  ∧ (∀ q : ℚ, isErr (fromJsonTD (withField "timestamp" (Json.num (JNum.float q)))) = true)
  ∧ (∀ q : ℚ, isErr (fromJsonTD (withField "uptime" (Json.num (JNum.float q)))) = true)
  ∧ (∀ q : ℚ, isErr (fromJsonTD (withField "heaterPWM" (Json.num (JNum.float q)))) = true)
  ∧ (∀ q : ℚ, isErr (fromJsonTD (withField "fanPWM" (Json.num (JNum.float q)))) = true)
  ∧ (∀ q : ℚ, isErr (fromJsonTD (withField "controlMode" (Json.num (JNum.float q)))) = true)
  ∧ (∀ q : ℚ, isErr (fromJsonTD (withField "heaterEnable" (Json.num (JNum.float q)))) = true) := by
  refine ⟨?_, ?_, ?_, ?_, ?_, ?_,
    fun q => by rw [fromJsonTD_withField_ts]; rfl,
    fun q => by rw [fromJsonTD_withField_up]; rfl,
    fun q => by rw [fromJsonTD_withField_hp]; rfl,
    fun q => by rw [fromJsonTD_withField_fp]; rfl,
    fun q => by rw [fromJsonTD_withField_cm]; rfl,
    fun q => by rw [fromJsonTD_withField_he]; rfl⟩
  · intro z h0 h255
    rw [fromJsonTD_withField_he, asU8_int_in_range z _ h0 h255]
    rfl
  · intro z h0 h255
    rw [fromJsonTD_withField_cm, asU8_int_in_range z _ h0 h255]
    rfl
  · intro z h
    rw [fromJsonTD_withField_he, asU8_int_out_of_range z _ h]
    rfl
  · intro z h
    rw [fromJsonTD_withField_cm, asU8_int_out_of_range z _ h]
    rfl
  · intro z h
    rw [fromJsonTD_withField_hp, asU8_int_out_of_range z _ h]
    rfl
  · intro z h
    rw [fromJsonTD_withField_fp, asU8_int_out_of_range z _ h]
    rfl

/-- Witness for C10: `heaterEnable = 200` accepted; `heaterEnable = 300`
and `fanPWM = -1` rejected; fractional `timestamp = 1.5` rejected. -/
theorem c10_integer_field_typing_witness :
    fromJsonTD (withField "heaterEnable" (Json.num (JNum.int 200)))
      = Except.ok { c1Record with heater_enable := (200 : Int).toNat }
  ∧ isErr (fromJsonTD (withField "heaterEnable" (Json.num (JNum.int 300)))) = true
  ∧ isErr (fromJsonTD (withField "fanPWM" (Json.num (JNum.int (-1))))) = true
  ∧ isErr (fromJsonTD (withField "timestamp" (Json.num (JNum.float (mkRat 3 2))))) = true :=
  ⟨c10_integer_field_typing.1 200 (by decide) (by decide),
   c10_integer_field_typing.2.2.1 300 (by decide),
   c10_integer_field_typing.2.2.2.2.2.1 (-1) (by decide),
   c10_integer_field_typing.2.2.2.2.2.2.1 (mkRat 3 2)⟩
